import Mathlib

/-!
Shallow embedding of the render-state core of the learn_wgpu repository
(src/lib.rs and src/state.rs), together with theorems checking the
natural-language specification against it.

Floating point values (f64) are modelled as rationals; u32 sizes as Nat.
GPU side effects are made observable: the surface carries the list of
configurations that have been applied to it, and rendering produces an
explicit trace of the commands recorded, submitted and presented.
-/

namespace LearnWgpu

/-- Model of wgpu Color: four f64 channels, modelled as rationals. -/
structure Color where
  r : ℚ
  g : ℚ
  b : ℚ
  a : ℚ
deriving DecidableEq

/-- Model of winit PhysicalSize of u32. -/
structure PhysicalSize where
  width : Nat
  height : Nat
deriving DecidableEq

/-- Model of wgpu TextureFormat: only its srgb-ness is observable in the
source (TextureFormat.is_srgb); an id distinguishes formats. -/
structure TextureFormat where
  srgb : Bool
  id : Nat
deriving DecidableEq

/-- TextureFormat.is_srgb from wgpu, used by the format selection in new. -/
def TextureFormat.is_srgb (f : TextureFormat) : Bool := f.srgb

instance : Inhabited TextureFormat := ⟨⟨false, 0⟩⟩

/-- Model of wgpu PresentMode (opaque id). -/
structure PresentMode where
  id : Nat
deriving DecidableEq

instance : Inhabited PresentMode := ⟨⟨0⟩⟩

/-- Model of wgpu CompositeAlphaMode (opaque id). -/
structure AlphaMode where
  id : Nat
deriving DecidableEq

instance : Inhabited AlphaMode := ⟨⟨0⟩⟩

/-- Model of wgpu TextureUsages as used by the source (RENDER_ATTACHMENT). -/
inductive TextureUsages where
  | RENDER_ATTACHMENT
deriving DecidableEq

/-- Model of wgpu SurfaceConfiguration, fields as in State::new. -/
structure SurfaceConfiguration where
  usage : TextureUsages
  format : TextureFormat
  width : Nat
  height : Nat
  present_mode : PresentMode
  alpha_mode : AlphaMode
  view_formats : List TextureFormat
deriving DecidableEq

/-- Model of wgpu SurfaceCapabilities, as returned by get_capabilities. -/
structure SurfaceCapabilities where
  formats : List TextureFormat
  present_modes : List PresentMode
  alpha_modes : List AlphaMode
deriving DecidableEq

/-- Model of the wgpu Device handle: carries no observable data. -/
structure Device where
deriving DecidableEq

/-- Model of the wgpu Queue handle: carries no observable data. -/
structure Queue where
deriving DecidableEq

/-- Model of the winit Window: only inner_size is read by the core. -/
structure Window where
  inner_size : PhysicalSize
deriving DecidableEq

/-- Model of the wgpu Surface: the side effect of Surface::configure is
made observable as the list of configurations applied to it, most
recent first. -/
structure Surface where
  appliedConfigs : List SurfaceConfiguration
deriving DecidableEq

/-- Surface::configure(device, config): records the applied configuration. -/
def Surface.configure (s : Surface) (_device : Device)
    (config : SurfaceConfiguration) : Surface :=
  ⟨config :: s.appliedConfigs⟩

/-- Model of wgpu PrimitiveTopology as used by the source. -/
inductive PrimitiveTopology where
  | TriangleList
deriving DecidableEq

/-- Model of wgpu BlendState as used by the source. -/
inductive BlendState where
  | REPLACE
deriving DecidableEq

/-- Model of a compiled wgpu RenderPipeline: the descriptor fields that
distinguish the two pipelines built by State::create_pipeline. -/
structure RenderPipeline where
  vertex_entry_point : String
  fragment_entry_point : String
  format : TextureFormat
  blend : BlendState
  topology : PrimitiveTopology
  sample_count : Nat
deriving DecidableEq

/-- Model of winit ElementState. -/
inductive ElementState where
  | Pressed
  | Released
deriving DecidableEq

/-- Model of winit VirtualKeyCode: the keys the source matches on, plus
an id for every other key. -/
inductive VirtualKeyCode where
  | B
  | G
  | R
  | Space
  | Escape
  | OtherKey (id : Nat)
deriving DecidableEq

/-- Model of winit KeyboardInput: the fields read by State::input. -/
structure KeyboardInput where
  state : ElementState
  virtual_keycode : Option VirtualKeyCode
deriving DecidableEq

/-- Model of winit WindowEvent: the variants matched by the source, plus
a catch-all for every other window event kind. -/
inductive WindowEvent where
  | KeyboardInput (input : KeyboardInput)
  | CursorMoved (x : ℚ) (y : ℚ)
  | CursorLeft
  | Resized (size : PhysicalSize)
  | ScaleFactorChanged (new_inner_size : PhysicalSize)
  | CloseRequested
  | OtherEvent (id : Nat)
deriving DecidableEq

/-- Model of wgpu SurfaceError, the error type of State::render. -/
inductive SurfaceError where
  | Timeout
  | Outdated
  | Lost
  | OutOfMemory
deriving DecidableEq

/-- Model of a wgpu SurfaceTexture handle acquired from the surface. -/
structure SurfaceTexture where
  id : Nat
deriving DecidableEq

/-- The State struct of src/state.rs. -/
structure State where
  surface : Surface
  device : Device
  queue : Queue
  config : SurfaceConfiguration
  size : PhysicalSize
  window : Window
  background_color : Color
  render_pipeline : RenderPipeline
  second_pipeline : RenderPipeline
deriving DecidableEq

/-- State::create_pipeline(device, config, fragment_entry_point): the
fixed descriptor of both pipelines, differing only in fragment entry
point and taking the color target format from the configuration. -/
def State.create_pipeline (_device : Device) (config : SurfaceConfiguration)
    (fragment_entry_point : String) : RenderPipeline :=
  { vertex_entry_point := "vs_main"
    fragment_entry_point := fragment_entry_point
    format := config.format
    blend := BlendState.REPLACE
    topology := PrimitiveTopology.TriangleList
    sample_count := 1 }

/-- State::new(window): builds the surface configuration from the window
inner size and the surface capabilities, applies it, and builds the two
pipelines. Adapter and device negotiation carry no observable data, so
the capabilities are a parameter. -/
def State.new (window : Window) (surface_caps : SurfaceCapabilities) : State :=
  let size := window.inner_size
  let surface : Surface := ⟨[]⟩
  let device : Device := ⟨⟩
  let queue : Queue := ⟨⟩
  let surface_format :=
    (surface_caps.formats.find? TextureFormat.is_srgb).getD
      surface_caps.formats.headI
  let config : SurfaceConfiguration :=
    { usage := TextureUsages.RENDER_ATTACHMENT
      format := surface_format
      width := size.width
      height := size.height
      present_mode := surface_caps.present_modes.headI
      alpha_mode := surface_caps.alpha_modes.headI
      view_formats := [] }
  let surface := surface.configure device config
  let render_pipeline := State.create_pipeline device config "fs_main"
  let second_pipeline := State.create_pipeline device config "fs_main2"
  { surface := surface
    device := device
    queue := queue
    config := config
    size := size
    window := window
    background_color := { r := 0.1, g := 0.2, b := 0.3, a := 1.0 }
    render_pipeline := render_pipeline
    second_pipeline := second_pipeline }

/-- State::resize(new_size). -/
def State.resize (s : State) (new_size : PhysicalSize) : State :=
  if new_size.width > 0 && new_size.height > 0 then
    let config := { s.config with width := new_size.width, height := new_size.height }
    { s with
      size := new_size
      config := config
      surface := s.surface.configure s.device config }
  else
    s

/-- State::input(event): returns the new state and the consumed flag. -/
def State.input (s : State) (event : WindowEvent) : State × Bool :=
  match event with
  | WindowEvent.KeyboardInput input =>
    match input.virtual_keycode.filter
        (fun _ => input.state == ElementState.Pressed) with
    | some key =>
      match key with
      | VirtualKeyCode.B =>
        ({ s with background_color := { r := 0.0, g := 0.0, b := 1.0, a := 1.0 } }, true)
      | VirtualKeyCode.G =>
        ({ s with background_color := { r := 0.0, g := 1.0, b := 0.0, a := 1.0 } }, true)
      | VirtualKeyCode.R =>
        ({ s with background_color := { r := 1.0, g := 0.0, b := 0.0, a := 1.0 } }, true)
      | VirtualKeyCode.Space =>
        ({ s with
            render_pipeline := s.second_pipeline
            second_pipeline := s.render_pipeline }, true)
      | _ => (s, false)
    | none => (s, true)
  | WindowEvent.CursorMoved px py =>
    let x := px / (s.size.width : ℚ)
    let y := py / (s.size.height : ℚ)
    if 0 ≤ x ∧ x < 1 ∧ 0 ≤ y ∧ y < 1 then
      ({ s with background_color := { r := x, g := y, b := 1 - (x + y) / 2, a := 1.0 } }, true)
    else
      (s, true)
  | WindowEvent.CursorLeft =>
    ({ s with background_color := { r := 0.0, g := 0.0, b := 0.0, a := 1.0 } }, true)
  | _ => (s, false)

/-- State::update: a no-op extension point. -/
def State.update (s : State) : State := s

/-- Model of wgpu LoadOp for a color attachment. -/
inductive LoadOp where
  | Clear (color : Color)
deriving DecidableEq

/-- Model of wgpu StoreOp. -/
inductive StoreOp where
  | Store
  | Discard
deriving DecidableEq

/-- Record of one render pass as recorded by State::render_with_pipeline:
its single color attachment operations, the pipeline set, and the draw
calls issued as (vertex range, instance range) pairs. -/
structure RenderPassRecord where
  label : String
  load : LoadOp
  store : StoreOp
  pipeline : RenderPipeline
  draws : List ((Nat × Nat) × (Nat × Nat))
deriving DecidableEq

/-- Trace of the GPU commands of one State::render call: texture views
created, render passes recorded, queue submissions (command buffers per
submission), and presents. -/
structure RenderTrace where
  views_created : Nat
  passes : List RenderPassRecord
  submissions : List Nat
  presents : Nat
deriving DecidableEq

/-- The empty trace: nothing recorded, submitted or presented. -/
def RenderTrace.empty : RenderTrace :=
  { views_created := 0, passes := [], submissions := [], presents := 0 }

/-- State::render_with_pipeline(encoder, view): records one render pass
that clears to the background color, stores the result, sets the render
pipeline and draws vertices 0..3, instances 0..1. -/
def State.render_with_pipeline (s : State) : RenderPassRecord :=
  { label := "Render pass"
    load := LoadOp.Clear s.background_color
    store := StoreOp.Store
    pipeline := s.render_pipeline
    draws := [((0, 3), (0, 1))] }

/-- State::render: the outcome of surface.get_current_texture() is the
acquired parameter. On error the ? operator propagates it with no side
effects; on success one view is created, one pass recorded, one command
buffer submitted in one submission, and one present issued. -/
def State.render (s : State)
    (acquired : Except SurfaceError SurfaceTexture) :
    Except SurfaceError Unit × State × RenderTrace :=
  match acquired with
  | Except.error e => (Except.error e, s, RenderTrace.empty)
  | Except.ok _output =>
    (Except.ok (), s,
      { views_created := 1
        passes := [s.render_with_pipeline]
        submissions := [1]
        presents := 1 })

/-- What the host event loop in run (src/lib.rs) does after the render
call of a redraw tick, besides updating the state. -/
inductive HostOutcome where
  | continueLoop
  | exitLoop
  | loggedError (e : SurfaceError)
deriving DecidableEq

/-- One RedrawRequested arm of the event loop in run (src/lib.rs):
update, render, then classify the render result: Lost reconfigures via
resize with the stored size, OutOfMemory exits the loop, any other
error is logged. -/
def redrawTick (s : State)
    (acquired : Except SurfaceError SurfaceTexture) :
    State × RenderTrace × HostOutcome :=
  let s₀ := s.update
  match s₀.render acquired with
  | (Except.ok _, s₁, tr) => (s₁, tr, HostOutcome.continueLoop)
  | (Except.error SurfaceError.Lost, s₁, tr) =>
    (s₁.resize s₁.size, tr, HostOutcome.continueLoop)
  | (Except.error SurfaceError.OutOfMemory, s₁, tr) =>
    (s₁, tr, HostOutcome.exitLoop)
  | (Except.error e, s₁, tr) => (s₁, tr, HostOutcome.loggedError e)

/-- One call into the core from the host: the four entry points that can
run after startup. -/
inductive Op where
  | input (event : WindowEvent)
  | resize (new_size : PhysicalSize)
  | update
  | render (acquired : Except SurfaceError SurfaceTexture)

/-- Apply one host call to the state (discarding the outputs). -/
def applyOp (s : State) (op : Op) : State :=
  match op with
  | Op.input e => (s.input e).1
  | Op.resize sz => s.resize sz
  | Op.update => s.update
  | Op.render a => (s.render a).2.1

/-- Apply a sequence of host calls to the state. -/
def applyOps (s : State) (ops : List Op) : State :=
  ops.foldl applyOp s

/-! Specification-side predicates and concrete fixtures used to state and
instantiate the claims. -/

/-- Events listed in the interaction table of the spec: a key press of
B, G, R or SPACE, a pointer move, or a pointer leave. An event is
unlisted when it is none of these. -/
def unlistedEvent (e : WindowEvent) : Bool :=
  match e with
  | WindowEvent.KeyboardInput input =>
    match input.state, input.virtual_keycode with
    | ElementState.Pressed, some VirtualKeyCode.B => false
    | ElementState.Pressed, some VirtualKeyCode.G => false
    | ElementState.Pressed, some VirtualKeyCode.R => false
    | ElementState.Pressed, some VirtualKeyCode.Space => false
    | _, _ => true
  | WindowEvent.CursorMoved _ _ => false
  | WindowEvent.CursorLeft => false
  | _ => true

/-- Keyboard events that do not carry a pressed key with a keycode:
releases, and presses without a virtual keycode. -/
def isNonPressKeyboardEvent (e : WindowEvent) : Bool :=
  match e with
  | WindowEvent.KeyboardInput input =>
    !(input.state == ElementState.Pressed && input.virtual_keycode.isSome)
  | _ => false

/-- A well-formed background color: alpha exactly 1 and all channels in
the unit interval. -/
def colorOK (c : Color) : Prop :=
  c.a = 1 ∧ 0 ≤ c.r ∧ c.r ≤ 1 ∧ 0 ≤ c.g ∧ c.g ≤ 1 ∧ 0 ≤ c.b ∧ c.b ≤ 1

/-- Concrete surface capabilities: one srgb format, one present mode,
one alpha mode. -/
def caps0 : SurfaceCapabilities := ⟨[⟨true, 0⟩], [⟨0⟩], [⟨0⟩]⟩

/-- Concrete window of inner size 800 by 600. -/
def window0 : Window := ⟨⟨800, 600⟩⟩

/-- Concrete startup state at window size 800 by 600. -/
def s0 : State := State.new window0 caps0

/-- Key press event for B. -/
def pressB : WindowEvent :=
  WindowEvent.KeyboardInput ⟨ElementState.Pressed, some VirtualKeyCode.B⟩

/-- Key press event for G. -/
def pressG : WindowEvent :=
  WindowEvent.KeyboardInput ⟨ElementState.Pressed, some VirtualKeyCode.G⟩

/-- Key press event for R. -/
def pressR : WindowEvent :=
  WindowEvent.KeyboardInput ⟨ElementState.Pressed, some VirtualKeyCode.R⟩

/-- Key press event for SPACE. -/
def pressSpace : WindowEvent :=
  WindowEvent.KeyboardInput ⟨ElementState.Pressed, some VirtualKeyCode.Space⟩

/-! Helper lemmas shared by several claims. -/

/-- Input handling never touches the surface (no configure call). -/
theorem input_surface_eq (s : State) (e : WindowEvent) :
    ((s.input e).1).surface = s.surface := by
  cases e with
  | KeyboardInput input =>
    rcases hk : input.virtual_keycode.filter
        (fun _ => input.state == ElementState.Pressed) with _ | key
    · simp [State.input, hk]
    · cases key <;> simp [State.input, hk]
  | CursorMoved px py =>
    simp only [State.input]
    split <;> rfl
  | CursorLeft => rfl
  | Resized sz => rfl
  | ScaleFactorChanged sz => rfl
  | CloseRequested => rfl
  | OtherEvent id => rfl

/-- Input handling never touches the stored size. -/
theorem input_size_eq (s : State) (e : WindowEvent) :
    ((s.input e).1).size = s.size := by
  cases e with
  | KeyboardInput input =>
    rcases hk : input.virtual_keycode.filter
        (fun _ => input.state == ElementState.Pressed) with _ | key
    · simp [State.input, hk]
    · cases key <;> simp [State.input, hk]
  | CursorMoved px py =>
    simp only [State.input]
    split <;> rfl
  | CursorLeft => rfl
  | Resized sz => rfl
  | ScaleFactorChanged sz => rfl
  | CloseRequested => rfl
  | OtherEvent id => rfl

/-- Input handling either keeps both pipeline slots or swaps them. -/
theorem input_pipelines (s : State) (e : WindowEvent) :
    (((s.input e).1).render_pipeline = s.render_pipeline ∧
      ((s.input e).1).second_pipeline = s.second_pipeline) ∨
    (((s.input e).1).render_pipeline = s.second_pipeline ∧
      ((s.input e).1).second_pipeline = s.render_pipeline) := by
  cases e with
  | KeyboardInput input =>
    rcases hk : input.virtual_keycode.filter
        (fun _ => input.state == ElementState.Pressed) with _ | key
    · simp [State.input, hk]
    · cases key <;> simp [State.input, hk]
  | CursorMoved px py =>
    simp only [State.input]
    split <;> exact Or.inl ⟨rfl, rfl⟩
  | CursorLeft => exact Or.inl ⟨rfl, rfl⟩
  | Resized sz => exact Or.inl ⟨rfl, rfl⟩
  | ScaleFactorChanged sz => exact Or.inl ⟨rfl, rfl⟩
  | CloseRequested => exact Or.inl ⟨rfl, rfl⟩
  | OtherEvent id => exact Or.inl ⟨rfl, rfl⟩

/-- Input handling preserves well-formedness of the background color. -/
theorem input_colorOK (s : State) (e : WindowEvent)
    (h : colorOK s.background_color) :
    colorOK ((s.input e).1).background_color := by
  cases e with
  | KeyboardInput input =>
    rcases hk : input.virtual_keycode.filter
        (fun _ => input.state == ElementState.Pressed) with _ | key
    · simpa [State.input, hk] using h
    · cases key <;> simp [State.input, hk, colorOK] <;> first | exact h | norm_num
  | CursorMoved px py =>
    simp only [State.input]
    split
    · next hin =>
      obtain ⟨hx0, hx1, hy0, hy1⟩ := hin
      exact ⟨by norm_num, hx0, hx1.le, hy0, hy1.le, by linarith, by linarith⟩
    · exact h
  | CursorLeft =>
    simp only [State.input, colorOK]
    norm_num
  | Resized sz => exact h
  | ScaleFactorChanged sz => exact h
  | CloseRequested => exact h
  | OtherEvent id => exact h

/-- Resize preserves positivity of every applied configuration. -/
theorem resize_applied_configs (s : State) (sz : PhysicalSize)
    (h : ∀ c ∈ s.surface.appliedConfigs, 0 < c.width ∧ 0 < c.height) :
    ∀ c ∈ (s.resize sz).surface.appliedConfigs, 0 < c.width ∧ 0 < c.height := by
  unfold State.resize
  split
  · next hpos =>
    intro c hc
    rcases List.mem_cons.mp hc with hl | hr
    · subst hl
      simp only [Bool.and_eq_true, decide_eq_true_eq] at hpos
      exact ⟨hpos.1, hpos.2⟩
    · exact h c hr
  · exact h

/-- Every host call preserves positivity of the applied configurations. -/
theorem applyOp_configs_positive (s : State) (op : Op)
    (h : ∀ c ∈ s.surface.appliedConfigs, 0 < c.width ∧ 0 < c.height) :
    ∀ c ∈ (applyOp s op).surface.appliedConfigs, 0 < c.width ∧ 0 < c.height := by
  cases op with
  | input e =>
    simp only [applyOp]
    rw [input_surface_eq]
    exact h
  | resize sz => exact resize_applied_configs s sz h
  | update => exact h
  | render a => cases a <;> exact h

/-- Every host call keeps the pipeline slots or swaps them. -/
theorem applyOp_pipelines (s : State) (op : Op) :
    ((applyOp s op).render_pipeline = s.render_pipeline ∧
      (applyOp s op).second_pipeline = s.second_pipeline) ∨
    ((applyOp s op).render_pipeline = s.second_pipeline ∧
      (applyOp s op).second_pipeline = s.render_pipeline) := by
  cases op with
  | input e => exact input_pipelines s e
  | resize sz =>
    simp only [applyOp]
    unfold State.resize
    split
    · exact Or.inl ⟨rfl, rfl⟩
    · exact Or.inl ⟨rfl, rfl⟩
  | update => exact Or.inl ⟨rfl, rfl⟩
  | render a => cases a <;> exact Or.inl ⟨rfl, rfl⟩

/-- Across any call sequence, the two pipeline slots always hold the
same unordered pair of pipelines. -/
theorem applyOps_pipelines (p₁ p₂ : RenderPipeline) (ops : List Op) :
    ∀ s : State,
      ((s.render_pipeline = p₁ ∧ s.second_pipeline = p₂) ∨
        (s.render_pipeline = p₂ ∧ s.second_pipeline = p₁)) →
      (((applyOps s ops).render_pipeline = p₁ ∧
          (applyOps s ops).second_pipeline = p₂) ∨
        ((applyOps s ops).render_pipeline = p₂ ∧
          (applyOps s ops).second_pipeline = p₁)) := by
  induction ops with
  | nil => intro s hs; exact hs
  | cons op rest ih =>
    intro s hs
    refine ih (applyOp s op) ?_
    rcases applyOp_pipelines s op with ⟨h₁, h₂⟩ | ⟨h₁, h₂⟩ <;>
      rcases hs with ⟨g₁, g₂⟩ | ⟨g₁, g₂⟩
    · exact Or.inl ⟨h₁.trans g₁, h₂.trans g₂⟩
    · exact Or.inr ⟨h₁.trans g₁, h₂.trans g₂⟩
    · exact Or.inr ⟨h₁.trans g₂, h₂.trans g₁⟩
    · exact Or.inl ⟨h₁.trans g₂, h₂.trans g₁⟩

/-! Claim theorems. -/

/-- C1: For a pointer move whose raw position divided by the stored
surface width and height gives normalized coordinates x and y each
with 0 <= x < 1 and 0 <= y < 1, input sets the background color to
exactly (x, y, 1 - (x + y) / 2, 1); for a pointer move whose
normalized coordinates fall outside that half-open range, the
background color is unchanged from its prior value. -/
theorem C1_pointer_move_gradient (s : State) (px py : ℚ) :
    ((0 ≤ px / (s.size.width : ℚ) ∧ px / (s.size.width : ℚ) < 1 ∧
        0 ≤ py / (s.size.height : ℚ) ∧ py / (s.size.height : ℚ) < 1) →
      (s.input (WindowEvent.CursorMoved px py)).1.background_color =
        { r := px / (s.size.width : ℚ)
          g := py / (s.size.height : ℚ)
          b := 1 - (px / (s.size.width : ℚ) + py / (s.size.height : ℚ)) / 2
          a := 1 }) ∧
    (¬ (0 ≤ px / (s.size.width : ℚ) ∧ px / (s.size.width : ℚ) < 1 ∧
        0 ≤ py / (s.size.height : ℚ) ∧ py / (s.size.height : ℚ) < 1) →
      (s.input (WindowEvent.CursorMoved px py)).1.background_color =
        s.background_color) := by
  refine ⟨fun hin => ?_, fun hin => ?_⟩
  · simp only [State.input]
    rw [if_pos hin]
    norm_num
  · simp only [State.input]
    rw [if_neg hin]

/-- Witness for C1 at the startup state and pointer position 200, 300:
normalized coordinates are 1/4 and 1/2, giving color (1/4, 1/2, 5/8, 1). -/
theorem C1_pointer_move_gradient_witness :
    (s0.input (WindowEvent.CursorMoved 200 300)).1.background_color =
      { r := 1/4, g := 1/2, b := 5/8, a := 1 } := by
  have hw : (s0.size.width : ℚ) = 800 := rfl
  have hh : (s0.size.height : ℚ) = 600 := rfl
  have h := (C1_pointer_move_gradient s0 200 300).1
  rw [hw, hh] at h
  rw [h (by norm_num)]
  norm_num

/-- C2: at the texture-acquisition boundary the host classifies render
errors into exactly three behaviours: surface lost calls resize with
the previously stored size, reapplying the configuration with the
previous dimensions, and skips the frame; out of memory exits the
render loop without reconfiguring; outdated or timeout only logs the
error and skips the frame with no state change. -/
theorem C2_error_classification (s : State)
    (h : 0 < s.size.width ∧ 0 < s.size.height) :
    (redrawTick s (Except.error SurfaceError.Lost) =
        (s.resize s.size, RenderTrace.empty, HostOutcome.continueLoop) ∧
      (s.resize s.size).surface.appliedConfigs =
        { s.config with width := s.size.width, height := s.size.height } ::
          s.surface.appliedConfigs) ∧
    redrawTick s (Except.error SurfaceError.OutOfMemory) =
      (s, RenderTrace.empty, HostOutcome.exitLoop) ∧
    redrawTick s (Except.error SurfaceError.Outdated) =
      (s, RenderTrace.empty, HostOutcome.loggedError SurfaceError.Outdated) ∧
    redrawTick s (Except.error SurfaceError.Timeout) =
      (s, RenderTrace.empty, HostOutcome.loggedError SurfaceError.Timeout) := by
  refine ⟨⟨rfl, ?_⟩, rfl, rfl, rfl⟩
  unfold State.resize
  rw [if_pos (by simp only [Bool.and_eq_true, decide_eq_true_eq]; exact ⟨h.1, h.2⟩)]
  rfl

/-- Witness for C2 at the startup state with positive size 800 by 600. -/
theorem C2_error_classification_witness :
    (0 < s0.size.width ∧ 0 < s0.size.height) ∧
    redrawTick s0 (Except.error SurfaceError.OutOfMemory) =
      (s0, RenderTrace.empty, HostOutcome.exitLoop) ∧
    (s0.resize s0.size).surface.appliedConfigs =
      { s0.config with width := s0.size.width, height := s0.size.height } ::
        s0.surface.appliedConfigs :=
  ⟨⟨by decide, by decide⟩,
    (C2_error_classification s0 ⟨by decide, by decide⟩).2.1,
    (C2_error_classification s0 ⟨by decide, by decide⟩).1.2⟩

/-- C3 counterexample: a key release of B is an event kind outside the
interaction table, yet input reports it consumed (returns true) while
the claim says it returns false; the state is still left unchanged. -/
theorem C3_counterexample :
    s0.input (WindowEvent.KeyboardInput
      ⟨ElementState.Released, some VirtualKeyCode.B⟩) = (s0, true) := rfl

/-- C3 amended: every event outside the interaction table leaves the
state unchanged; the return value is false for presses of unlisted
keys and for non-keyboard events, but true for keyboard events that
are not a key press carrying a keycode (releases, and presses without
a virtual keycode). -/
theorem C3_unlisted_events (s : State) (e : WindowEvent)
    (h : unlistedEvent e = true) :
    (s.input e).1 = s ∧ (s.input e).2 = isNonPressKeyboardEvent e := by
  cases e with
  | KeyboardInput input =>
    obtain ⟨st, kc⟩ := input
    cases st with
    | Pressed =>
      rcases kc with _ | key
      · exact ⟨rfl, rfl⟩
      · cases key <;> first
          | exact ⟨rfl, rfl⟩
          | (simp [unlistedEvent] at h)
    | Released =>
      rcases kc with _ | key
      · exact ⟨rfl, rfl⟩
      · cases key <;> exact ⟨rfl, rfl⟩
  | CursorMoved px py => simp [unlistedEvent] at h
  | CursorLeft => simp [unlistedEvent] at h
  | Resized sz => exact ⟨rfl, rfl⟩
  | ScaleFactorChanged sz => exact ⟨rfl, rfl⟩
  | CloseRequested => exact ⟨rfl, rfl⟩
  | OtherEvent id => exact ⟨rfl, rfl⟩

/-- Witness for C3 amended at a window-resized event, which is outside
the interaction table: state unchanged and not consumed. -/
theorem C3_unlisted_events_witness :
    unlistedEvent (WindowEvent.Resized ⟨10, 20⟩) = true ∧
    (s0.input (WindowEvent.Resized ⟨10, 20⟩)).1 = s0 ∧
    (s0.input (WindowEvent.Resized ⟨10, 20⟩)).2 =
      isNonPressKeyboardEvent (WindowEvent.Resized ⟨10, 20⟩) :=
  ⟨by decide,
    (C3_unlisted_events s0 (WindowEvent.Resized ⟨10, 20⟩) (by decide)).1,
    (C3_unlisted_events s0 (WindowEvent.Resized ⟨10, 20⟩) (by decide)).2⟩

/-- C4: resize with a zero dimension is a no-op, leaving the whole
state, including stored size and configuration, unchanged and applying
no configuration; resize with both dimensions positive stores exactly
the new width and height and reapplies the configuration to the live
surface. -/
theorem C4_resize_semantics (s : State) (W H : Nat) :
    ((W = 0 ∨ H = 0) → s.resize ⟨W, H⟩ = s) ∧
    (0 < W → 0 < H →
      (s.resize ⟨W, H⟩).size = ⟨W, H⟩ ∧
      (s.resize ⟨W, H⟩).config.width = W ∧
      (s.resize ⟨W, H⟩).config.height = H ∧
      (s.resize ⟨W, H⟩).surface.appliedConfigs =
        { s.config with width := W, height := H } ::
          s.surface.appliedConfigs) := by
  constructor
  · intro h0
    unfold State.resize
    split
    · next hpos =>
      have hW : 0 < W := of_decide_eq_true (Bool.and_elim_left hpos)
      have hH : 0 < H := of_decide_eq_true (Bool.and_elim_right hpos)
      rcases h0 with h | h <;> omega
    · rfl
  · intro hW hH
    unfold State.resize
    rw [if_pos (by simp only [Bool.and_eq_true, decide_eq_true_eq]; exact ⟨hW, hH⟩)]
    exact ⟨rfl, rfl, rfl, rfl⟩

/-- Witness for C4: resizing s0 to (0, 300) changes nothing, resizing
to (1024, 768) stores the new size and reapplies the configuration. -/
theorem C4_resize_semantics_witness :
    s0.resize ⟨0, 300⟩ = s0 ∧
    (s0.resize ⟨1024, 768⟩).size = ⟨1024, 768⟩ ∧
    (s0.resize ⟨1024, 768⟩).config.width = 1024 ∧
    (s0.resize ⟨1024, 768⟩).config.height = 768 ∧
    (s0.resize ⟨1024, 768⟩).surface.appliedConfigs =
      { s0.config with width := 1024, height := 768 } ::
        s0.surface.appliedConfigs :=
  ⟨(C4_resize_semantics s0 0 300).1 (Or.inl rfl),
    (C4_resize_semantics s0 1024 768).2 (by norm_num) (by norm_num)⟩

/-- C5 counterexample: with a zero initial window size, the startup
configuration applied to the surface has width 0 and height 0, so the
invariant fails at the initial configuration. -/
theorem C5_counterexample :
    (State.new ⟨⟨0, 0⟩⟩ caps0).surface.appliedConfigs.map
      (fun c => (c.width, c.height)) = [(0, 0)] := rfl

/-- C5 amended: provided the initial window size is positive, every
configuration applied to the live surface, at startup and under any
sequence of host calls, has positive width and height; a zero
dimension resize request is ignored and the prior configuration
retained. -/
theorem C5_applied_configs_positive (window : Window)
    (caps : SurfaceCapabilities) (ops : List Op)
    (h : 0 < window.inner_size.width ∧ 0 < window.inner_size.height) :
    ∀ c ∈ (applyOps (State.new window caps) ops).surface.appliedConfigs,
      0 < c.width ∧ 0 < c.height := by
  have base : ∀ c ∈ (State.new window caps).surface.appliedConfigs,
      0 < c.width ∧ 0 < c.height := by
    intro c hc
    rw [show (State.new window caps).surface.appliedConfigs =
        [(State.new window caps).config] from rfl] at hc
    rw [List.mem_singleton] at hc
    subst hc
    exact ⟨h.1, h.2⟩
  have run : ∀ s : State,
      (∀ c ∈ s.surface.appliedConfigs, 0 < c.width ∧ 0 < c.height) →
      ∀ c ∈ (applyOps s ops).surface.appliedConfigs,
        0 < c.width ∧ 0 < c.height := by
    induction ops with
    | nil => intro s hs; exact hs
    | cons op rest ih =>
      intro s hs
      exact ih (applyOp s op) (applyOp_configs_positive s op hs)
  exact run _ base

/-- Witness for C5 amended: startup at 800 by 600 followed by a
rejected resize to (0, 300) and an accepted resize to (1024, 768). -/
theorem C5_applied_configs_positive_witness :
    (0 < window0.inner_size.width ∧ 0 < window0.inner_size.height) ∧
    ∀ c ∈ (applyOps (State.new window0 caps0)
        [Op.resize ⟨0, 300⟩, Op.resize ⟨1024, 768⟩]).surface.appliedConfigs,
      0 < c.width ∧ 0 < c.height :=
  ⟨⟨by decide, by decide⟩,
    C5_applied_configs_positive window0 caps0
      [Op.resize ⟨0, 300⟩, Op.resize ⟨1024, 768⟩] ⟨by decide, by decide⟩⟩

/-- C6: a SPACE press swaps the two pipeline slots and is consumed,
no other field of the state changes, applying it twice restores the
original state (involution), and in every state reachable from startup
the two slots hold the two startup pipelines in some order, so the
active pipeline toggles between exactly those two values. -/
theorem C6_space_toggle (s : State) (window : Window)
    (caps : SurfaceCapabilities) (ops : List Op) :
    s.input pressSpace =
      ({ s with
          render_pipeline := s.second_pipeline
          second_pipeline := s.render_pipeline }, true) ∧
    ((s.input pressSpace).1.input pressSpace).1 = s ∧
    (((applyOps (State.new window caps) ops).render_pipeline =
          (State.new window caps).render_pipeline ∧
        (applyOps (State.new window caps) ops).second_pipeline =
          (State.new window caps).second_pipeline) ∨
      ((applyOps (State.new window caps) ops).render_pipeline =
          (State.new window caps).second_pipeline ∧
        (applyOps (State.new window caps) ops).second_pipeline =
          (State.new window caps).render_pipeline)) :=
  ⟨rfl, rfl,
    applyOps_pipelines (State.new window caps).render_pipeline
      (State.new window caps).second_pipeline ops
      (State.new window caps) (Or.inl ⟨rfl, rfl⟩)⟩

/-- C7: a successful render call acquires the texture, creates one
view, records exactly one render pass whose load clears to the current
background color and whose store persists the result, binds the
currently active pipeline and issues a single draw of vertices 0..3
and instances 0..1, makes exactly one queue submission of one command
buffer, presents exactly once, and leaves the state unchanged. -/
theorem C7_render_success (s : State) (tex : SurfaceTexture) :
    s.render (Except.ok tex) =
      (Except.ok (), s,
        { views_created := 1
          passes := [{ label := "Render pass"
                       load := LoadOp.Clear s.background_color
                       store := StoreOp.Store
                       pipeline := s.render_pipeline
                       draws := [((0, 3), (0, 1))] }]
          submissions := [1]
          presents := 1 }) := rfl

/-- C8: when texture acquisition fails, render propagates the error as
its result and has no side effects: the state is unchanged and the
trace is empty, so no pass is recorded, nothing submitted, nothing
presented. -/
theorem C8_render_error_no_side_effects (s : State) (e : SurfaceError) :
    s.render (Except.error e) = (Except.error e, s, RenderTrace.empty) := rfl

/-- C9: key presses of B, G, R set the background color to solid blue,
green, red respectively, pointer leave sets solid black, each with
alpha 1; each input is consumed, and repeating the same input yields
the identical result (idempotence). -/
theorem C9_solid_color_inputs (s : State) :
    (s.input pressB =
        ({ s with background_color := { r := 0, g := 0, b := 1, a := 1 } }, true) ∧
      (s.input pressB).1.input pressB = s.input pressB) ∧
    (s.input pressG =
        ({ s with background_color := { r := 0, g := 1, b := 0, a := 1 } }, true) ∧
      (s.input pressG).1.input pressG = s.input pressG) ∧
    (s.input pressR =
        ({ s with background_color := { r := 1, g := 0, b := 0, a := 1 } }, true) ∧
      (s.input pressR).1.input pressR = s.input pressR) ∧
    (s.input WindowEvent.CursorLeft =
        ({ s with background_color := { r := 0, g := 0, b := 0, a := 1 } }, true) ∧
      (s.input WindowEvent.CursorLeft).1.input WindowEvent.CursorLeft =
        s.input WindowEvent.CursorLeft) := by
  refine ⟨⟨?_, rfl⟩, ⟨?_, rfl⟩, ⟨?_, rfl⟩, ⟨?_, rfl⟩⟩ <;>
    · simp only [State.input, pressB, pressG, pressR, Option.filter,
        Prod.mk.injEq, State.mk.injEq, Color.mk.injEq, and_true, true_and]
      norm_num

/-- C10: starting from the initial state, after every possible
sequence of input, resize, update and render calls the background
color has alpha exactly 1 and red, green, blue channels within the
unit interval. -/
theorem C10_background_color_invariant (window : Window)
    (caps : SurfaceCapabilities) (ops : List Op) :
    colorOK (applyOps (State.new window caps) ops).background_color := by
  have step : ∀ (s : State) (op : Op), colorOK s.background_color →
      colorOK (applyOp s op).background_color := by
    intro s op hs
    cases op with
    | input e => exact input_colorOK s e hs
    | resize sz =>
      simp only [applyOp]
      unfold State.resize
      split
      · exact hs
      · exact hs
    | update => exact hs
    | render a => cases a <;> exact hs
  have init : colorOK (State.new window caps).background_color := by
    show colorOK { r := 0.1, g := 0.2, b := 0.3, a := 1.0 }
    norm_num [colorOK]
  have run : ∀ s : State, colorOK s.background_color →
      colorOK (applyOps s ops).background_color := by
    induction ops with
    | nil => intro s hs; exact hs
    | cons op rest ih => intro s hs; exact ih (applyOp s op) (step s op hs)
  exact run _ init

end LearnWgpu
